import Mathlib

/-!
Shallow embedding of the ml-metadata storage/query engine
(`ml_metadata/metadata_store/query_config_executor.cc` and the list-operation
query helper) together with proofs that settle the frozen claims about the
schema-versioning state machine, initialization, and the pagination clauses.

The executor talks to a backing `MetadataSource` only through
`MetadataSource::ExecuteQuery(sql, record_set)`.  We model that boundary by an
oracle: a function from the interaction trace so far and the next action to the
(status, record set) response of the source.  Executor methods are state-passing
functions over the trace, so every theorem can speak about exactly which
queries were issued and in which order.
-/

namespace MLMD

/-- Error codes of `absl::Status` that the executor produces or inspects. -/
inductive StatusCode where
  | ok
  | invalidArgument
  | notFound
  | alreadyExists
  | failedPrecondition
  | aborted
  | dataLoss
  | internal
  deriving DecidableEq

/-- `absl::Status`: an error code together with a message string. -/
structure Status where
  code : StatusCode
  message : String
  deriving DecidableEq

/-- `absl::OkStatus()`. -/
def okStatus : Status := ⟨.ok, ""⟩

/-- `Status::ok()`. -/
def Status.isOk (s : Status) : Bool := s.code == .ok

/-- `MLMD_RETURN_WITH_CONTEXT_IF_ERROR` (`ml_metadata/util/return_utils.h`):
on error it rebuilds the status with the same code and the context string
prepended to the original message. -/
def Status.withContext (s : Status) (ctx : String) : Status := ⟨s.code, ctx ++ s.message⟩

/-- `RecordSet` (proto): ordered column names and rows of string cells. -/
structure RecordSet where
  column_names : List String
  records : List (List String)
  deriving DecidableEq

/-- A fresh, empty `RecordSet`. -/
def emptyRecordSet : RecordSet := ⟨[], []⟩

/-- `MetadataSourceQueryConfig::TemplateQuery` (proto): a SQL template with
positional placeholders `$0..$9` and its declared parameter arity. -/
structure TemplateQuery where
  query : String
  parameter_num : Nat
  deriving DecidableEq

/-- `MetadataSourceQueryConfig::MigrationScheme` (proto): the per-destination
upgrade and downgrade query lists. -/
structure MigrationScheme where
  upgrade_queries : List TemplateQuery
  downgrade_queries : List TemplateQuery
  deriving DecidableEq

/-- The fields of `MetadataSourceQueryConfig` (proto) that
`query_config_executor.cc` reads: the library schema version, the probe and
table check/create templates, the secondary indices and the migration scheme
map (keyed by destination version). -/
structure MetadataSourceQueryConfig where
  schema_version : Int
  check_mlmd_env_table : TemplateQuery
  check_tables_in_v0_13_2 : TemplateQuery
  check_type_table : TemplateQuery
  check_parent_type_table : TemplateQuery
  check_type_property_table : TemplateQuery
  check_artifact_table : TemplateQuery
  check_artifact_property_table : TemplateQuery
  check_execution_table : TemplateQuery
  check_execution_property_table : TemplateQuery
  check_event_table : TemplateQuery
  check_event_path_table : TemplateQuery
  check_context_table : TemplateQuery
  check_parent_context_table : TemplateQuery
  check_context_property_table : TemplateQuery
  check_association_table : TemplateQuery
  check_attribution_table : TemplateQuery
  create_type_table : TemplateQuery
  create_type_property_table : TemplateQuery
  create_parent_type_table : TemplateQuery
  create_artifact_table : TemplateQuery
  create_artifact_property_table : TemplateQuery
  create_execution_table : TemplateQuery
  create_execution_property_table : TemplateQuery
  create_event_table : TemplateQuery
  create_event_path_table : TemplateQuery
  create_mlmd_env_table : TemplateQuery
  create_context_table : TemplateQuery
  create_context_property_table : TemplateQuery
  create_parent_context_table : TemplateQuery
  create_association_table : TemplateQuery
  create_attribution_table : TemplateQuery
  secondary_indices : List TemplateQuery
  migration_schemes : Int → Option MigrationScheme

/-- Interactions of the executor with the backing source.  `execQuery` is
`MetadataSource::ExecuteQuery` on a concrete SQL string.
`updateSchemaVersion` and `insertSchemaVersion` are modelled from the spec:
`UpdateSchemaVersion` / `InsertSchemaVersion` belong to the public surface of
the Query Executor (spec section 4.3) but their bodies live in the header that
is not part of the sources, so they are kept as primitive actions. -/
inductive Act where
  | execQuery (q : String)
  | updateSchemaVersion (v : Int)
  | insertSchemaVersion (v : Int)
  deriving DecidableEq

/-- Behaviour of the backing metadata source: given the interaction trace so
far and the next action, the (status, record set) the source responds with. -/
abbrev Oracle := List Act → Act → Status × RecordSet

/-- Issue one action: record it on the trace and obtain the response. -/
def runAct (o : Oracle) (tr : List Act) (a : Act) : (Status × RecordSet) × List Act :=
  (o tr a, tr ++ [a])

/-- Result of a C++ method returning `absl::Status`: a value on OK, an error
status, or process death (`LOG(FATAL)` / failed `CHECK`). -/
inductive Outcome (α : Type) where
  | ok (a : α)
  | err (s : Status)
  | fatal
  deriving DecidableEq

/-- Whether an outcome is an error with the given code. -/
def Outcome.isErrWithCode {α : Type} (c : StatusCode) : Outcome α → Bool
  | .err s => s.code == c
  | _ => false

/-- One step of the `absl::StrReplaceAll` scan specialised to the replacement
pairs `("$i", parameters[i])` built by `ExecuteQuery`: the scan keeps at most
one pending character; a pending `'$'` followed by a digit naming a parameter
is replaced by that parameter, otherwise the pending character is emitted and
the scan moves one character forward. -/
def substStep (params : List String) : Option Char → List Char → List Char
  | none, [] => []
  | some c1, [] => [c1]
  | none, c :: rest => substStep params (some c) rest
  | some c1, c2 :: rest =>
    if c1 = '$' ∧ c2.isDigit ∧ c2.toNat - 48 < params.length then
      (params.getD (c2.toNat - 48) "").toList ++ substStep params none rest
    else
      c1 :: substStep params (some c2) rest

/-- Placeholder substitution over a character list. -/
def substituteChars (params : List String) (l : List Char) : List Char :=
  substStep params none l

/-- String form of placeholder substitution. -/
def substitute (query : String) (params : List String) : String :=
  String.mk (substituteChars params query.toList)

/-- `QueryConfigExecutor::ExecuteQuery(template_query, parameters, record_set)`
(`query_config_executor.cc`): more than 10 parameters is `InvalidArgument`;
a parameter count different from the template's `parameter_num` is
`LOG(FATAL)`; otherwise the placeholders are substituted and the resulting SQL
is executed on the metadata source. -/
def ExecuteQuery (o : Oracle) (template_query : TemplateQuery) (parameters : List String)
    (tr : List Act) : Outcome RecordSet × List Act :=
  if parameters.length > 10 then
    (.err ⟨.invalidArgument,
      "Template query has too many parameters (at most 10 is supported)."⟩, tr)
  else if template_query.parameter_num ≠ parameters.length then
    (.fatal, tr)
  else
    let q := substitute template_query.query parameters
    let (r, tr1) := runAct o tr (.execQuery q)
    if r.1.isOk then (.ok r.2, tr1) else (.err r.1, tr1)

/-- Accumulate decimal digits; any non-digit character fails the parse. -/
def digitsToNat (acc : Nat) : List Char → Option Nat
  | [] => some acc
  | c :: rest => if c.isDigit then digitsToNat (acc * 10 + (c.toNat - 48)) rest else none

/-- A non-empty all-digit run. -/
def parseDigits (l : List Char) : Option Nat :=
  match l with
  | [] => none
  | _ => digitsToNat 0 l

/-- `absl::SimpleAtoi` on an int64 output, as used by `GetSchemaVersion` and
`SelectLastInsertID`: an optional sign followed by at least one decimal digit
and nothing else (64-bit overflow is not modelled). -/
def parseInt64 (s : String) : Option Int :=
  match s.toList with
  | '-' :: rest => (parseDigits rest).map (fun n => -(n : Int))
  | '+' :: rest => (parseDigits rest).map (fun n => (n : Int))
  | l => (parseDigits l).map (fun n => (n : Int))

/-- `QueryConfigExecutor::GetSchemaVersion` (`query_config_executor.cc`,
lines 123-152): run `check_mlmd_env_table`; on success 0 rows is `Aborted`,
more than one row is `DataLoss`, one row parses its first cell as int64
(a failed parse is a failed `CHECK`); if the probe fails, a successful
`check_tables_in_v0_13_2` yields version 0, otherwise `NotFound`. -/
def GetSchemaVersion (cfg : MetadataSourceQueryConfig) (o : Oracle) (tr : List Act) :
    Outcome Int × List Act :=
  match ExecuteQuery o cfg.check_mlmd_env_table [] tr with
  | (.fatal, tr1) => (.fatal, tr1)
  | (.ok rs, tr1) =>
    if rs.records.length = 0 then
      (.err ⟨.aborted,
        "In the given db, MLMDEnv table exists but no schema_version can be found. This may be due to concurrent connection to the empty database. Please retry connection."⟩,
       tr1)
    else if rs.records.length > 1 then
      (.err ⟨.dataLoss,
        "In the given db, MLMDEnv table exists but schema_version cannot be resolved due to there being more than one rows with the schema version. Expecting a single row"⟩,
       tr1)
    else
      match parseInt64 ((rs.records.headD []).headD "") with
      | some v => (.ok v, tr1)
      | none => (.fatal, tr1)
  | (.err _, tr1) =>
    match ExecuteQuery o cfg.check_tables_in_v0_13_2 [] tr1 with
    | (.fatal, tr2) => (.fatal, tr2)
    | (.ok _, tr2) => (.ok 0, tr2)
    | (.err _, tr2) => (.err ⟨.notFound, "it looks an empty db is given."⟩, tr2)

/-- `QueryConfigExecutor::IsCompatible` (`query_config_executor.cc`): the
output flag is `db_version == lib_version`. -/
def IsCompatible (db_version lib_version : Int) : Bool := db_version == lib_version

/-- `GetLibraryVersion`.  Modelled from the spec: the library version is the
`schema_version` of the query config (spec section 4.2); the body lives in the
header that is not part of the sources.  The claims under proof all run with
no pinned `query_schema_version`. -/
def GetLibraryVersion (cfg : MetadataSourceQueryConfig) : Int := cfg.schema_version

/-- The body of the upgrade loop over one migration scheme: each upgrade query
is executed through the raw-string `ExecuteQuery(upgrade_query.query())`
overload; a failure returns the status with the context
`"Upgrade query failed: " ++ query` prepended. -/
def runUpgradeQueries (o : Oracle) : List TemplateQuery → List Act → Outcome Unit × List Act
  | [], tr => (.ok (), tr)
  | tq :: rest, tr =>
    let (r, tr1) := runAct o tr (.execQuery tq.query)
    if r.1.isOk then runUpgradeQueries o rest tr1
    else (.err (r.1.withContext ("Upgrade query failed: " ++ tq.query)), tr1)

/-- The `while (db_version < lib_version)` loop of
`UpgradeMetadataSourceIfOutOfDate`: step to `db_version + 1` by running that
scheme's upgrade queries and then `UpdateSchemaVersion`.  The loop advances by
exactly one version per iteration, so `(lib - db).toNat` of fuel makes the
recursion structural. -/
def upgradeLoop (cfg : MetadataSourceQueryConfig) (o : Oracle) :
    Nat → Int → Int → List Act → Outcome Unit × List Act
  | 0, _, _, tr => (.ok (), tr)
  | fuel + 1, db_version, lib_version, tr =>
    if db_version < lib_version then
      let to_version := db_version + 1
      match cfg.migration_schemes to_version with
      | none =>
        (.err ⟨.internal, "Cannot find migration_schemes to version " ++ toString to_version⟩, tr)
      | some scheme =>
        match runUpgradeQueries o scheme.upgrade_queries tr with
        | (.ok _, tr1) =>
          let (r, tr2) := runAct o tr1 (.updateSchemaVersion to_version)
          if r.1.isOk then upgradeLoop cfg o fuel to_version lib_version tr2
          else (.err (r.1.withContext "Failed to update schema."), tr2)
        | (.err s, tr1) => (.err s, tr1)
        | (.fatal, tr1) => (.fatal, tr1)
    else (.ok (), tr)

/-- The tail of `UpgradeMetadataSourceIfOutOfDate` once the database version is
known (`query_config_executor.cc`, lines 165-208): equal versions are
compatible and OK; `db > lib` is `FailedPrecondition`; `db < lib` with
migration disabled is `FailedPrecondition`; otherwise migrate one version at a
time up to the library version. -/
def upgradeFromVersion (cfg : MetadataSourceQueryConfig) (o : Oracle) (enable_migration : Bool)
    (db_version lib_version : Int) (tr : List Act) : Outcome Unit × List Act :=
  if IsCompatible db_version lib_version then (.ok (), tr)
  else if db_version > lib_version then
    (.err ⟨.failedPrecondition,
      "MLMD database version " ++ toString db_version ++ " is greater than library version " ++
      toString lib_version ++
      ". Please upgrade the library to use the given database in order to prevent potential data loss. If data loss is acceptable, please downgrade the database using a newer version of library."⟩,
     tr)
  else if db_version < lib_version ∧ enable_migration = false then
    (.err ⟨.failedPrecondition,
      "MLMD database version " ++ toString db_version ++ " is older than library version " ++
      toString lib_version ++
      ". Schema migration is disabled. Please upgrade the database then use the library version; or switch to a older library version to use the current database."⟩,
     tr)
  else upgradeLoop cfg o (lib_version - db_version).toNat db_version lib_version tr

/-- `QueryConfigExecutor::UpgradeMetadataSourceIfOutOfDate`
(`query_config_executor.cc`, lines 154-209): probe the schema version (a
`NotFound` probe means an empty database and the version is taken to be the
library version, any other probe error propagates), then hand over to
`upgradeFromVersion`. -/
def UpgradeMetadataSourceIfOutOfDate (cfg : MetadataSourceQueryConfig) (o : Oracle)
    (enable_migration : Bool) (tr : List Act) : Outcome Unit × List Act :=
  let lib_version := GetLibraryVersion cfg
  match GetSchemaVersion cfg o tr with
  | (.fatal, tr1) => (.fatal, tr1)
  | (.err s, tr1) =>
    if s.code = .notFound then
      upgradeFromVersion cfg o enable_migration lib_version lib_version tr1
    else (.err s, tr1)
  | (.ok db_version, tr1) =>
    upgradeFromVersion cfg o enable_migration db_version lib_version tr1

/-- The body of the downgrade loop over one migration scheme: each downgrade
query is executed through the template `ExecuteQuery(downgrade_query)`
overload (zero parameters); a failure returns the status with the migration
rollback context prepended. -/
def runDowngradeQueries (o : Oracle) : List TemplateQuery → List Act → Outcome Unit × List Act
  | [], tr => (.ok (), tr)
  | tq :: rest, tr =>
    match ExecuteQuery o tq [] tr with
    | (.ok _, tr1) => runDowngradeQueries o rest tr1
    | (.err s, tr1) =>
      (.err (s.withContext
        "Failed to migrate existing db; the migration transaction rolls back."), tr1)
    | (.fatal, tr1) => (.fatal, tr1)

/-- The `while (db_version > to_schema_version)` loop of
`DowngradeMetadataSource`: step to `db_version - 1` by running that scheme's
downgrade queries; `UpdateSchemaVersion` is called only when the destination
version is positive (version 0 predates the `MLMDEnv` table). -/
def downgradeLoop (cfg : MetadataSourceQueryConfig) (o : Oracle) :
    Nat → Int → Int → List Act → Outcome Unit × List Act
  | 0, _, _, tr => (.ok (), tr)
  | fuel + 1, db_version, to_schema_version, tr =>
    if db_version > to_schema_version then
      let to_version := db_version - 1
      match cfg.migration_schemes to_version with
      | none =>
        (.err ⟨.internal, "Cannot find migration_schemes to version " ++ toString to_version⟩, tr)
      | some scheme =>
        match runDowngradeQueries o scheme.downgrade_queries tr with
        | (.ok _, tr1) =>
          if to_version > 0 then
            let (r, tr2) := runAct o tr1 (.updateSchemaVersion to_version)
            if r.1.isOk then downgradeLoop cfg o fuel to_version to_schema_version tr2
            else
              (.err (r.1.withContext
                "Failed to migrate existing db; the migration transaction rolls back."), tr2)
          else downgradeLoop cfg o fuel to_version to_schema_version tr1
        | (.err s, tr1) => (.err s, tr1)
        | (.fatal, tr1) => (.fatal, tr1)
    else (.ok (), tr)

/-- `QueryConfigExecutor::DowngradeMetadataSource` (`query_config_executor.cc`,
lines 232-281): a target version below 0 or above the library version is
`InvalidArgument` before anything runs; a `NotFound` schema probe (empty
database) is `InvalidArgument`; a database version above the library version is
`FailedPrecondition`; otherwise run the downgrade loop down to the target. -/
def DowngradeMetadataSource (cfg : MetadataSourceQueryConfig) (o : Oracle)
    (to_schema_version : Int) (tr : List Act) : Outcome Unit × List Act :=
  let lib_version := cfg.schema_version
  if to_schema_version < 0 ∨ to_schema_version > lib_version then
    (.err ⟨.invalidArgument,
      "MLMD cannot be downgraded to schema_version: " ++ toString to_schema_version ++
      ". The target version should be greater or equal to 0, and the current library version: " ++
      toString lib_version ++ " needs to be greater than the target version."⟩,
     tr)
  else
    match GetSchemaVersion cfg o tr with
    | (.fatal, tr1) => (.fatal, tr1)
    | (.err s, tr1) =>
      if s.code = .notFound then
        (.err ⟨.invalidArgument, "Empty database is given. Downgrade operation is not needed."⟩,
         tr1)
      else (.err s, tr1)
    | (.ok db_version, tr1) =>
      if db_version > lib_version then
        (.err ⟨.failedPrecondition,
          "MLMD database version " ++ toString db_version ++
          " is greater than library version " ++ toString lib_version ++
          ". The current library does not know how to downgrade it. Please upgrade the library to downgrade the schema."⟩,
         tr1)
      else downgradeLoop cfg o (db_version - to_schema_version).toNat db_version to_schema_version tr1

/-- Substring test over character lists (helper for `strContains`). -/
def charsContains (sub : List Char) : List Char → Bool
  | [] => sub.isEmpty
  | c :: rest => sub.isPrefixOf (c :: rest) || charsContains sub rest

/-- `absl::StrContains`. -/
def strContains (s sub : String) : Bool := charsContains sub.toList s.toList

/-- The 15 table-presence checks of `InitMetadataSourceIfNotExists`
(`query_config_executor.cc`, lines 492-506), in source order.  Each
`Check<Table>` method is `ExecuteQuery` on the corresponding check template
with no parameters, as the two check methods present in the source
(`CheckParentTypeTable`, `CheckParentContextTable`) do. -/
def checkTableTemplates (cfg : MetadataSourceQueryConfig) : List TemplateQuery :=
  [cfg.check_type_table, cfg.check_parent_type_table, cfg.check_type_property_table,
   cfg.check_artifact_table, cfg.check_artifact_property_table, cfg.check_execution_table,
   cfg.check_execution_property_table, cfg.check_event_table, cfg.check_event_path_table,
   cfg.check_mlmd_env_table, cfg.check_context_table, cfg.check_parent_context_table,
   cfg.check_context_property_table, cfg.check_association_table, cfg.check_attribution_table]

/-- The 15 table-creation statements of `InitMetadataSource`
(`query_config_executor.cc`, lines 429-448), in source order. -/
def createTableTemplates (cfg : MetadataSourceQueryConfig) : List TemplateQuery :=
  [cfg.create_type_table, cfg.create_type_property_table, cfg.create_parent_type_table,
   cfg.create_artifact_table, cfg.create_artifact_property_table, cfg.create_execution_table,
   cfg.create_execution_property_table, cfg.create_event_table, cfg.create_event_path_table,
   cfg.create_mlmd_env_table, cfg.create_context_table, cfg.create_context_property_table,
   cfg.create_parent_context_table, cfg.create_association_table, cfg.create_attribution_table]

/-- Run the table-presence checks, collecting every check's status (an error
does not stop the collection, mirroring the `checks.push_back` loop).  `none`
is process death from a template arity mismatch. -/
def runChecks (o : Oracle) : List TemplateQuery → List Act → Option (List Status) × List Act
  | [], tr => (some [], tr)
  | tq :: rest, tr =>
    match ExecuteQuery o tq [] tr with
    | (.fatal, tr1) => (none, tr1)
    | (.ok _, tr1) =>
      match runChecks o rest tr1 with
      | (none, tr2) => (none, tr2)
      | (some sts, tr2) => (some (okStatus :: sts), tr2)
    | (.err s, tr1) =>
      match runChecks o rest tr1 with
      | (none, tr2) => (none, tr2)
      | (some sts, tr2) => (some (s :: sts), tr2)

/-- Run the table-creation statements in order; the first failure aborts
(`MLMD_RETURN_IF_ERROR`). -/
def runCreates (o : Oracle) : List TemplateQuery → List Act → Outcome Unit × List Act
  | [], tr => (.ok (), tr)
  | tq :: rest, tr =>
    match ExecuteQuery o tq [] tr with
    | (.ok _, tr1) => runCreates o rest tr1
    | (.err s, tr1) => (.err s, tr1)
    | (.fatal, tr1) => (.fatal, tr1)

/-- Run the secondary-index statements in order; a failure whose message
contains `"Duplicate key name"` is skipped, any other failure aborts
(`query_config_executor.cc`, lines 449-459). -/
def runIndices (o : Oracle) : List TemplateQuery → List Act → Outcome Unit × List Act
  | [], tr => (.ok (), tr)
  | tq :: rest, tr =>
    match ExecuteQuery o tq [] tr with
    | (.ok _, tr1) => runIndices o rest tr1
    | (.err s, tr1) =>
      if strContains s.message "Duplicate key name" then runIndices o rest tr1
      else (.err s, tr1)
    | (.fatal, tr1) => (.fatal, tr1)

/-- `QueryConfigExecutor::InitMetadataSource` (`query_config_executor.cc`,
lines 428-477): create the 15 tables, create the secondary indices (skipping
duplicate-index errors), then `InsertSchemaVersion(library_version)`; if the
insert fails, re-read the schema version and tolerate an identical existing
value, reporting `DataLoss` on a mismatch. -/
def InitMetadataSource (cfg : MetadataSourceQueryConfig) (o : Oracle) (tr : List Act) :
    Outcome Unit × List Act :=
  match runCreates o (createTableTemplates cfg) tr with
  | (.err s, tr1) => (.err s, tr1)
  | (.fatal, tr1) => (.fatal, tr1)
  | (.ok _, tr1) =>
    match runIndices o cfg.secondary_indices tr1 with
    | (.err s, tr2) => (.err s, tr2)
    | (.fatal, tr2) => (.fatal, tr2)
    | (.ok _, tr2) =>
      let library_version := GetLibraryVersion cfg
      let (r, tr3) := runAct o tr2 (.insertSchemaVersion library_version)
      if r.1.isOk then (.ok (), tr3)
      else
        match GetSchemaVersion cfg o tr3 with
        | (.fatal, tr4) => (.fatal, tr4)
        | (.err s, tr4) => (.err s, tr4)
        | (.ok db_version, tr4) =>
          if db_version ≠ library_version then
            (.err ⟨.dataLoss,
              "The database cannot be initialized with the schema_version in the current library. Current library version: " ++
              toString library_version ++ ", the db version on record is: " ++
              toString db_version ++
              ". It may result from a data race condition caused by other concurrent MLMD's migration procedures."⟩,
             tr4)
          else (.ok (), tr4)

/-- `QueryConfigExecutor::InitMetadataSourceIfNotExists`
(`query_config_executor.cc`, lines 479-538) with no pinned
`query_schema_version`: upgrade if out of date, then check the 15 expected
tables; all present is OK, a strict subset present is `Aborted`, none present
runs `InitMetadataSource`. -/
def InitMetadataSourceIfNotExists (cfg : MetadataSourceQueryConfig) (o : Oracle)
    (enable_upgrade_migration : Bool) (tr : List Act) : Outcome Unit × List Act :=
  match UpgradeMetadataSourceIfOutOfDate cfg o enable_upgrade_migration tr with
  | (.err s, tr1) => (.err s, tr1)
  | (.fatal, tr1) => (.fatal, tr1)
  | (.ok _, tr1) =>
    match runChecks o (checkTableTemplates cfg) tr1 with
    | (none, tr2) => (.fatal, tr2)
    | (some sts, tr2) =>
      let failing := sts.filter (fun s => !s.isOk)
      if failing.isEmpty then (.ok (), tr2)
      else if sts.length ≠ failing.length then
        (.err ⟨.aborted,
          "There are a subset of tables in MLMD instance. This may be due to concurrent connection to the empty database. Please retry the connection."⟩,
         tr2)
      else InitMetadataSource cfg o tr2

/-- `ListOperationOptions::OrderByField::Field` (proto enum). -/
inductive OrderByField where
  | CREATE_TIME
  | LAST_UPDATE_TIME
  | ID
  deriving DecidableEq

/-- `ListOperationOptions::OrderByField` (proto). -/
structure OrderByFieldSpec where
  field : OrderByField
  is_asc : Bool
  deriving DecidableEq

/-- The cursor part of a `ListOperationNextPageToken`: either a single
`id_offset`, or the `listed_ids` sharing the field offset (used when the
ordering field is non-unique). -/
inductive IdCursor where
  | idOffset (i : Int)
  | listedIds (ids : List Int)
  deriving DecidableEq

/-- `ListOperationNextPageToken` (proto), already decoded.  Modelled from the
spec: the URL-safe base64 round trip of the serialized proto (spec section
4.4) is not part of the sources and is abstracted away; the options under
proof carry the decoded token directly. -/
structure ListOperationNextPageToken where
  field_offset : Int
  cursor : IdCursor
  deriving DecidableEq

/-- `ListOperationOptions` (proto) as consumed by the list-operation helper,
carrying the decoded page token. -/
structure ListOperationOptions where
  max_result_size : Int
  order_by_field : OrderByFieldSpec
  next_page_token : Option ListOperationNextPageToken
  deriving DecidableEq

/-- Column backing each ordering field (spec section 4.4). -/
def orderByFieldColumn : OrderByField → String
  | .CREATE_TIME => "create_time_since_epoch"
  | .LAST_UPDATE_TIME => "last_update_time_since_epoch"
  | .ID => "id"

/-- Comma-join of an id list with a given separator. -/
def joinInts (sep : String) : List Int → String
  | [] => ""
  | [i] => toString i
  | i :: rest => toString i ++ sep ++ joinInts sep rest

/-- `AppendOrderingThresholdClause`.  Modelled from the spec: the helper's
implementation (`list_operation_query_helper.cc`) is not part of the sources;
only its declaration and its tests are.  Spec section 4.4: with no token no
clause is appended; the comparison on the ordering column is `<=` descending
and `>=` ascending; field `ID` compares `id` strictly against the field
offset; a time-like field compares the column inclusively against the field
offset and then restricts `id` strictly against `id_offset`, or via
`NOT IN (listed_ids)`.  The emitted fragments match the repository's tests
character for character (`list_operation_query_helper_test.cc`, lines
48-114). -/
def AppendOrderingThresholdClause (options : ListOperationOptions) (sql_query_clause : String) :
    Except Status String :=
  match options.next_page_token with
  | none => .ok sql_query_clause
  | some token =>
    let inclusiveOp := if options.order_by_field.is_asc then ">=" else "<="
    let strictOp := if options.order_by_field.is_asc then ">" else "<"
    match options.order_by_field.field with
    | .ID =>
      .ok (sql_query_clause ++ " `id` " ++ strictOp ++ " " ++ toString token.field_offset ++ " ")
    | f =>
      let column := orderByFieldColumn f
      match token.cursor with
      | .idOffset i =>
        .ok (sql_query_clause ++ " `" ++ column ++ "` " ++ inclusiveOp ++ " " ++
             toString token.field_offset ++ " AND `id` " ++ strictOp ++ " " ++ toString i ++ " ")
      | .listedIds ids =>
        .ok (sql_query_clause ++ " `" ++ column ++ "` " ++ inclusiveOp ++ " " ++
             toString token.field_offset ++ " AND `id` NOT IN (" ++ joinInts "," ids ++ ") ")

/-- `AppendOrderByClause`.  Modelled from the spec (section 4.4): order by the
backing column with an `id` tiebreak in the same direction; field `ID` orders
by `id` alone.  Matches the repository's tests
(`list_operation_query_helper_test.cc`, lines 116-141). -/
def AppendOrderByClause (options : ListOperationOptions) (sql_query_clause : String) :
    Except Status String :=
  let dir := if options.order_by_field.is_asc then "ASC" else "DESC"
  match options.order_by_field.field with
  | .ID => .ok (sql_query_clause ++ " ORDER BY `id` " ++ dir ++ " ")
  | f =>
    .ok (sql_query_clause ++ " ORDER BY `" ++ orderByFieldColumn f ++ "` " ++ dir ++
         ", `id` " ++ dir ++ " ")

/-- `AppendLimitClause`.  Modelled from the spec: the helper's implementation
is not part of the sources.  A non-positive `max_result_size` is
`InvalidArgument`; otherwise the emitted limit is capped at 101 rows, the
value pinned by the repository's tests (`list_operation_query_helper_test.cc`,
lines 143-164: `max_result_size` 1 emits `LIMIT 1`, 200 emits `LIMIT 101`). -/
def AppendLimitClause (options : ListOperationOptions) (sql_query_clause : String) :
    Except Status String :=
  if options.max_result_size ≤ 0 then
    .error ⟨.invalidArgument,
      "max_result_size field value is required to be greater than 0. Set value: " ++
      toString options.max_result_size⟩
  else
    .ok (sql_query_clause ++ " LIMIT " ++ toString (min options.max_result_size 101) ++ " ")

/-- The three node kinds `ListNodeIDsUsingOptions` dispatches on. -/
inductive NodeKind where
  | artifact
  | execution
  | context
  deriving DecidableEq

/-- The per-kind base query of `ListNodeIDsUsingOptions`
(`query_config_executor.cc`, lines 604-613). -/
def nodeKindFromClause : NodeKind → String
  | .artifact => "SELECT `id` FROM `Artifact` WHERE"
  | .execution => "SELECT `id` FROM `Execution` WHERE"
  | .context => "SELECT `id` FROM `Context` WHERE"

/-- `QueryConfigExecutor::ListNodeIDsUsingOptions` (`query_config_executor.cc`,
lines 594-624): a present-but-empty candidate set returns OK at once without
touching the source; otherwise the query is assembled from the base clause,
the optional `id IN (...)` filter (`Bind` joins the ids with `", "`), the
ordering threshold, the order-by and the limit clauses, and executed. -/
def ListNodeIDsUsingOptions (o : Oracle) (kind : NodeKind) (options : ListOperationOptions)
    (candidate_ids : Option (List Int)) (record_set : RecordSet) (tr : List Act) :
    Outcome Unit × RecordSet × List Act :=
  match candidate_ids with
  | some [] => (.ok (), record_set, tr)
  | _ =>
    let base := nodeKindFromClause kind
    let sql0 :=
      match candidate_ids with
      | some ids => base ++ " `id` IN (" ++ joinInts ", " ids ++ ") AND "
      | none => base
    match AppendOrderingThresholdClause options sql0 with
    | .error s => (.err s, record_set, tr)
    | .ok sql1 =>
      match AppendOrderByClause options sql1 with
      | .error s => (.err s, record_set, tr)
      | .ok sql2 =>
        match AppendLimitClause options sql2 with
        | .error s => (.err s, record_set, tr)
        | .ok sql3 =>
          let (r, tr1) := runAct o tr (.execQuery sql3)
          if r.1.isOk then (.ok (), r.2, tr1) else (.err r.1, r.2, tr1)

/-! ### Auxiliary definitions: oracle predicates, expected migration traces,
and concrete instances used by the witnesses. -/

/-- Oracles that answer OK to every action issued at or after a base trace. -/
def OracleOkFrom (o : Oracle) (base : List Act) : Prop :=
  ∀ tr a, base <+: tr → (o tr a).1.isOk = true

/-- The interaction trace the upgrade loop produces when every step succeeds:
for each destination version `db+1, db+2, ...` the scheme's upgrade queries in
catalog order followed by `UpdateSchemaVersion` of that version. -/
def expectedUpgradeActs (cfg : MetadataSourceQueryConfig) : Nat → Int → List Act
  | 0, _ => []
  | fuel + 1, db_version =>
    match cfg.migration_schemes (db_version + 1) with
    | none => []
    | some scheme =>
      scheme.upgrade_queries.map (fun tq => Act.execQuery tq.query) ++
      [Act.updateSchemaVersion (db_version + 1)] ++
      expectedUpgradeActs cfg fuel (db_version + 1)

/-- The interaction trace the downgrade loop produces when every step
succeeds: for each destination version `db-1, db-2, ...` the scheme's
downgrade queries in catalog order, then `UpdateSchemaVersion` of that
version only when it is positive. -/
def expectedDowngradeActs (cfg : MetadataSourceQueryConfig) : Nat → Int → List Act
  | 0, _ => []
  | fuel + 1, db_version =>
    match cfg.migration_schemes (db_version - 1) with
    | none => []
    | some scheme =>
      scheme.downgrade_queries.map (fun tq => Act.execQuery tq.query) ++
      (if db_version - 1 > 0 then [Act.updateSchemaVersion (db_version - 1)] else []) ++
      expectedDowngradeActs cfg fuel (db_version - 1)

/-- Every destination version in `[t, db)` has a migration scheme whose
downgrade queries are zero-parameter templates. -/
def DowngradeSchemesWf (cfg : MetadataSourceQueryConfig) (t db : Int) : Prop :=
  ∀ v, t ≤ v → v < db → ∃ scheme, cfg.migration_schemes v = some scheme ∧
    ∀ tq ∈ scheme.downgrade_queries, tq.parameter_num = 0

/-- A zero-parameter template. -/
def tq0 (q : String) : TemplateQuery := ⟨q, 0⟩

/-- A small concrete query config (library version 2, migration schemes for
versions 0..2) used to instantiate the witnesses. -/
def sampleConfig : MetadataSourceQueryConfig where
  schema_version := 2
  check_mlmd_env_table := tq0 "select `schema_version` from `MLMDEnv`"
  check_tables_in_v0_13_2 := tq0 "select counts of the v0.13.2 tables"
  check_type_table := tq0 "select count(*) from `Type`"
  check_parent_type_table := tq0 "select count(*) from `ParentType`"
  check_type_property_table := tq0 "select count(*) from `TypeProperty`"
  check_artifact_table := tq0 "select count(*) from `Artifact`"
  check_artifact_property_table := tq0 "select count(*) from `ArtifactProperty`"
  check_execution_table := tq0 "select count(*) from `Execution`"
  check_execution_property_table := tq0 "select count(*) from `ExecutionProperty`"
  check_event_table := tq0 "select count(*) from `Event`"
  check_event_path_table := tq0 "select count(*) from `EventPath`"
  check_context_table := tq0 "select count(*) from `Context`"
  check_parent_context_table := tq0 "select count(*) from `ParentContext`"
  check_context_property_table := tq0 "select count(*) from `ContextProperty`"
  check_association_table := tq0 "select count(*) from `Association`"
  check_attribution_table := tq0 "select count(*) from `Attribution`"
  create_type_table := tq0 "create table if not exists `Type`"
  create_type_property_table := tq0 "create table if not exists `TypeProperty`"
  create_parent_type_table := tq0 "create table if not exists `ParentType`"
  create_artifact_table := tq0 "create table if not exists `Artifact`"
  create_artifact_property_table := tq0 "create table if not exists `ArtifactProperty`"
  create_execution_table := tq0 "create table if not exists `Execution`"
  create_execution_property_table := tq0 "create table if not exists `ExecutionProperty`"
  create_event_table := tq0 "create table if not exists `Event`"
  create_event_path_table := tq0 "create table if not exists `EventPath`"
  create_mlmd_env_table := tq0 "create table if not exists `MLMDEnv`"
  create_context_table := tq0 "create table if not exists `Context`"
  create_context_property_table := tq0 "create table if not exists `ContextProperty`"
  create_parent_context_table := tq0 "create table if not exists `ParentContext`"
  create_association_table := tq0 "create table if not exists `Association`"
  create_attribution_table := tq0 "create table if not exists `Attribution`"
  secondary_indices := [tq0 "create index `idx_artifact_uri` on `Artifact`(`uri`)"]
  migration_schemes := fun v =>
    if v = 0 then some ⟨[], [tq0 "drop table `MLMDEnv`"]⟩
    else if v = 1 then some ⟨[tq0 "upgrade schema to v1"], [tq0 "downgrade schema to v1"]⟩
    else if v = 2 then some ⟨[tq0 "upgrade schema to v2"], [tq0 "downgrade schema to v2"]⟩
    else none

/-- A metadata source that answers OK with no rows to everything. -/
def constOkOracle : Oracle := fun _ _ => (okStatus, emptyRecordSet)

/-- A metadata source with no tables at all: every query fails. -/
def emptyDbOracle : Oracle := fun _ _ => (⟨.internal, "no such table"⟩, emptyRecordSet)

/-- A metadata source holding a version-1 database: the `MLMDEnv` probe
returns one row with `schema_version` 1, everything else succeeds. -/
def db1Oracle : Oracle := fun _ a =>
  match a with
  | .execQuery q =>
    if q = "select `schema_version` from `MLMDEnv`" then
      (okStatus, ⟨["schema_version"], [["1"]]⟩)
    else (okStatus, emptyRecordSet)
  | _ => (okStatus, emptyRecordSet)

/-- A metadata source holding a version-2 database. -/
def db2Oracle : Oracle := fun _ a =>
  match a with
  | .execQuery q =>
    if q = "select `schema_version` from `MLMDEnv`" then
      (okStatus, ⟨["schema_version"], [["2"]]⟩)
    else (okStatus, emptyRecordSet)
  | _ => (okStatus, emptyRecordSet)

/-- A metadata source where `InsertSchemaVersion` loses an initialization race
(it fails, and the re-read of `MLMDEnv` sees version 2). -/
def raceOracle : Oracle := fun _ a =>
  match a with
  | .insertSchemaVersion _ => (⟨.alreadyExists, "schema row exists"⟩, emptyRecordSet)
  | .execQuery q =>
    if q = "select `schema_version` from `MLMDEnv`" then
      (okStatus, ⟨["schema_version"], [["2"]]⟩)
    else (okStatus, emptyRecordSet)
  | .updateSchemaVersion _ => (okStatus, emptyRecordSet)

/-- A metadata source simulating a fresh, empty database for
`InitMetadataSourceIfNotExists` on `sampleConfig`: the first 17 interactions
(the two version probes and the 15 table checks) fail, everything after
succeeds. -/
def freshDbOracle : Oracle := fun tr _ =>
  if tr.length < 17 then (⟨.internal, "no such table"⟩, emptyRecordSet)
  else (okStatus, emptyRecordSet)

/-! ### Basic lemmas about the embedding -/

theorem substStep_nil : ∀ (pending : Option Char) (l : List Char),
    substStep [] pending l = pending.toList ++ l
  | none, [] => rfl
  | some _, [] => rfl
  | none, c :: rest => by
    have ih := substStep_nil (some c) rest
    simp [substStep, ih]
  | some c1, c2 :: rest => by
    have ih := substStep_nil (some c2) rest
    simp [substStep, ih]

theorem substituteChars_nil (l : List Char) : substituteChars [] l = l := by
  simp [substituteChars, substStep_nil]

theorem substitute_nil (q : String) : substitute q [] = q := by
  show String.mk (substituteChars [] q.toList) = q
  rw [substituteChars_nil]
  rfl

/-- A zero-parameter template executes exactly its raw query text. -/
theorem ExecuteQuery_zero (o : Oracle) (tq : TemplateQuery) (tr : List Act)
    (h : tq.parameter_num = 0) :
    ExecuteQuery o tq [] tr =
      (if (o tr (.execQuery tq.query)).1.isOk then
        (.ok (o tr (.execQuery tq.query)).2, tr ++ [.execQuery tq.query])
       else (.err (o tr (.execQuery tq.query)).1, tr ++ [.execQuery tq.query])) := by
  simp [ExecuteQuery, h, runAct, substitute_nil]

theorem OracleOkFrom.mono {o : Oracle} {base base' : List Act} (h : OracleOkFrom o base)
    (hp : base <+: base') : OracleOkFrom o base' :=
  fun tr a htr => h tr a (hp.trans htr)

/-! ### The list-operation helper against the repository's test vectors
(`list_operation_query_helper_test.cc`). -/

theorem thresholdClause_test_create_time_desc :
    AppendOrderingThresholdClause ⟨1, ⟨.CREATE_TIME, false⟩, some ⟨56894, .idOffset 100⟩⟩ "" =
      .ok " `create_time_since_epoch` <= 56894 AND `id` < 100 " := rfl

theorem thresholdClause_test_create_time_asc :
    AppendOrderingThresholdClause ⟨1, ⟨.CREATE_TIME, true⟩, some ⟨56894, .idOffset 100⟩⟩ "" =
      .ok " `create_time_since_epoch` >= 56894 AND `id` > 100 " := rfl

theorem thresholdClause_test_last_update_listed_ids :
    AppendOrderingThresholdClause ⟨1, ⟨.LAST_UPDATE_TIME, false⟩, some ⟨56894, .listedIds [6, 5]⟩⟩
      "" = .ok " `last_update_time_since_epoch` <= 56894 AND `id` NOT IN (6,5) " := rfl

theorem thresholdClause_test_by_id :
    AppendOrderingThresholdClause ⟨1, ⟨.ID, false⟩, some ⟨100, .idOffset 0⟩⟩ "" =
      .ok " `id` < 100 " := rfl

theorem orderByClause_test_desc :
    AppendOrderByClause ⟨1, ⟨.CREATE_TIME, false⟩, none⟩ "" =
      .ok " ORDER BY `create_time_since_epoch` DESC, `id` DESC " := rfl

theorem orderByClause_test_asc :
    AppendOrderByClause ⟨1, ⟨.CREATE_TIME, true⟩, none⟩ "" =
      .ok " ORDER BY `create_time_since_epoch` ASC, `id` ASC " := rfl

theorem orderByClause_test_by_id :
    AppendOrderByClause ⟨1, ⟨.ID, false⟩, none⟩ "" = .ok " ORDER BY `id` DESC " := rfl

theorem limitClause_test_basic :
    AppendLimitClause ⟨1, ⟨.CREATE_TIME, false⟩, none⟩ "" = .ok " LIMIT 1 " := rfl

theorem limitClause_test_over_max :
    AppendLimitClause ⟨200, ⟨.CREATE_TIME, false⟩, none⟩ "" = .ok " LIMIT 101 " := rfl

theorem limitClause_test_invalid :
    (AppendLimitClause ⟨0, ⟨.CREATE_TIME, false⟩, none⟩ "").isOk = false := rfl

/-! ### Claim theorems for the list-operation helper -/

/-- C6: for every ordering field, direction and decoded page-token shape,
`AppendOrderingThresholdClause` emits exactly the prescribed WHERE fragment:
field `ID` compares `id` strictly against the field offset; a time-like field
with an `id_offset` compares its column inclusively (`<=` descending, `>=`
ascending) against the field offset and `id` strictly against the id offset;
a time-like field with `listed_ids` compares its column inclusively and
excludes `id NOT IN (listed_ids)`. -/
theorem C6_ordering_threshold_clause (options : ListOperationOptions)
    (token : ListOperationNextPageToken) (sql : String)
    (htok : options.next_page_token = some token) :
    (options.order_by_field.field = .ID →
      AppendOrderingThresholdClause options sql =
        .ok (sql ++ " `id` " ++ (if options.order_by_field.is_asc then ">" else "<") ++ " " ++
             toString token.field_offset ++ " ")) ∧
    (∀ i, options.order_by_field.field ≠ .ID → token.cursor = .idOffset i →
      AppendOrderingThresholdClause options sql =
        .ok (sql ++ " `" ++ orderByFieldColumn options.order_by_field.field ++ "` " ++
             (if options.order_by_field.is_asc then ">=" else "<=") ++ " " ++
             toString token.field_offset ++ " AND `id` " ++
             (if options.order_by_field.is_asc then ">" else "<") ++ " " ++
             toString i ++ " ")) ∧
    (∀ ids, options.order_by_field.field ≠ .ID → token.cursor = .listedIds ids →
      AppendOrderingThresholdClause options sql =
        .ok (sql ++ " `" ++ orderByFieldColumn options.order_by_field.field ++ "` " ++
             (if options.order_by_field.is_asc then ">=" else "<=") ++ " " ++
             toString token.field_offset ++ " AND `id` NOT IN (" ++
             joinInts "," ids ++ ") ")) := by
  obtain ⟨ms, ⟨field, asc⟩, npt⟩ := options
  cases htok
  refine ⟨?_, ?_, ?_⟩
  · intro hf
    cases hf
    simp [AppendOrderingThresholdClause]
  · intro i hf hcur
    cases field <;> simp_all [AppendOrderingThresholdClause, orderByFieldColumn]
  · intro ids hf hcur
    cases field <;> simp_all [AppendOrderingThresholdClause, orderByFieldColumn]

/-- Witness for C6 at the repository's `OrderingWhereClauseDesc` test input. -/
theorem C6_ordering_threshold_clause_witness :
    AppendOrderingThresholdClause ⟨1, ⟨.CREATE_TIME, false⟩, some ⟨56894, .idOffset 100⟩⟩ "" =
      .ok " `create_time_since_epoch` <= 56894 AND `id` < 100 " :=
  (C6_ordering_threshold_clause ⟨1, ⟨.CREATE_TIME, false⟩, some ⟨56894, .idOffset 100⟩⟩
    ⟨56894, .idOffset 100⟩ "" rfl).2.1 100 (by decide) rfl

/-- Counterexample for C7 as stated: the claim's formula
`LIMIT min(k, 100) + 1` would emit `LIMIT 2` for `max_result_size = 1`, but the
helper (as pinned by the repository's `LimitClause` test) emits `LIMIT 1`. -/
theorem C7_limit_claim_counterexample :
    AppendLimitClause ⟨1, ⟨.CREATE_TIME, false⟩, none⟩ "" = .ok " LIMIT 1 " ∧
    (" LIMIT 1 " : String) ≠ " LIMIT " ++ toString (min (1 : Int) 100 + 1) ++ " " := by
  exact ⟨rfl, by decide⟩

/-- C7 (amended): `AppendLimitClause` emits `LIMIT min(k, 101)` for
`max_result_size = k > 0` (the cap pinned by the repository's tests), and a
non-positive `k` is `InvalidArgument`. -/
theorem C7_limit_clause_amended (options : ListOperationOptions) (sql : String) :
    (options.max_result_size ≤ 0 →
      (AppendLimitClause options sql).isOk = false ∧
      AppendLimitClause options sql =
        .error ⟨.invalidArgument,
          "max_result_size field value is required to be greater than 0. Set value: " ++
          toString options.max_result_size⟩) ∧
    (0 < options.max_result_size →
      AppendLimitClause options sql =
        .ok (sql ++ " LIMIT " ++ toString (min options.max_result_size 101) ++ " ")) := by
  constructor
  · intro h
    constructor <;> simp [AppendLimitClause, h, Except.isOk, Except.toBool]
  · intro h
    rw [AppendLimitClause, if_neg (by omega)]

/-- Witness for C7's amended claim at `max_result_size = 200`. -/
theorem C7_limit_clause_amended_witness :
    AppendLimitClause ⟨200, ⟨.ID, false⟩, none⟩ "" =
      .ok ("" ++ " LIMIT " ++ toString (min (200 : Int) 101) ++ " ") :=
  (C7_limit_clause_amended ⟨200, ⟨.ID, false⟩, none⟩ "").2 (by decide)

/-! ### Claim theorems for `ExecuteQuery` and `ListNodeIDsUsingOptions` -/

/-- Counterexample for C8 as stated: a call whose parameter count (1, which is
not more than 10) differs from the template's declared `parameter_num` (2) is
`LOG(FATAL)` — process death — not a returned `InvalidArgument`; nothing is
executed. -/
theorem C8_arity_mismatch_counterexample :
    ExecuteQuery constOkOracle ⟨"insert into t values ($0, $1)", 2⟩ ["1"] [] = (.fatal, []) ∧
    Outcome.isErrWithCode .invalidArgument
      (ExecuteQuery constOkOracle ⟨"insert into t values ($0, $1)", 2⟩ ["1"] []).1 = false := by
  exact ⟨by decide, by decide⟩

/-- C8 (amended): `ExecuteQuery` returns `InvalidArgument` — before any
substitution or execution — for every call with more than 10 parameters;
otherwise a call whose parameter count differs from the template's declared
`parameter_num` dies with `LOG(FATAL)` before any substitution or execution
(it is not a returned status). -/
theorem C8_parameter_check_amended (o : Oracle) (template_query : TemplateQuery)
    (parameters : List String) (tr : List Act) :
    (parameters.length > 10 →
      ExecuteQuery o template_query parameters tr =
        (.err ⟨.invalidArgument,
          "Template query has too many parameters (at most 10 is supported)."⟩, tr)) ∧
    (parameters.length ≤ 10 → template_query.parameter_num ≠ parameters.length →
      ExecuteQuery o template_query parameters tr = (.fatal, tr)) := by
  constructor
  · intro h
    rw [ExecuteQuery, if_pos h]
  · intro h hne
    rw [ExecuteQuery, if_neg (by omega), if_pos hne]

/-- Witness for C8's amended claim: 11 parameters are rejected as
`InvalidArgument` with no query issued. -/
theorem C8_parameter_check_amended_witness :
    ExecuteQuery constOkOracle ⟨"q", 11⟩
      ["0", "1", "2", "3", "4", "5", "6", "7", "8", "9", "10"] [] =
      (.err ⟨.invalidArgument,
        "Template query has too many parameters (at most 10 is supported)."⟩, []) :=
  (C8_parameter_check_amended constOkOracle ⟨"q", 11⟩
    ["0", "1", "2", "3", "4", "5", "6", "7", "8", "9", "10"] []).1 (by decide)

/-- C9: for every node kind and options, a candidate-id set that is present
but empty makes `ListNodeIDsUsingOptions` return OK at once: the interaction
trace is unchanged (no SQL is issued) and the output record set is returned
untouched (so a fresh empty one stays empty). -/
theorem C9_empty_candidates_short_circuit (o : Oracle) (kind : NodeKind)
    (options : ListOperationOptions) (record_set : RecordSet) (tr : List Act) :
    ListNodeIDsUsingOptions o kind options (some []) record_set tr = (.ok (), record_set, tr) :=
  rfl

/-! ### Claim theorems for schema probing and migration -/

/-- C2: `GetSchemaVersion` case analysis.  When the `MLMDEnv` probe succeeds:
0 rows is `Aborted`, more than one row is `DataLoss`, exactly one row parses
its first cell as int64 and returns it.  When the probe fails: a successful
`check_tables_in_v0_13_2` returns version 0, and otherwise the result is
`NotFound`. -/
theorem C2_get_schema_version_spec (cfg : MetadataSourceQueryConfig) (o : Oracle) (tr : List Act)
    (h1 : cfg.check_mlmd_env_table.parameter_num = 0)
    (h2 : cfg.check_tables_in_v0_13_2.parameter_num = 0) :
    ((o tr (.execQuery cfg.check_mlmd_env_table.query)).1.isOk = true →
      (o tr (.execQuery cfg.check_mlmd_env_table.query)).2.records = [] →
      GetSchemaVersion cfg o tr =
        (.err ⟨.aborted,
          "In the given db, MLMDEnv table exists but no schema_version can be found. This may be due to concurrent connection to the empty database. Please retry connection."⟩,
         tr ++ [.execQuery cfg.check_mlmd_env_table.query])) ∧
    ((o tr (.execQuery cfg.check_mlmd_env_table.query)).1.isOk = true →
      (o tr (.execQuery cfg.check_mlmd_env_table.query)).2.records.length > 1 →
      GetSchemaVersion cfg o tr =
        (.err ⟨.dataLoss,
          "In the given db, MLMDEnv table exists but schema_version cannot be resolved due to there being more than one rows with the schema version. Expecting a single row"⟩,
         tr ++ [.execQuery cfg.check_mlmd_env_table.query])) ∧
    (∀ rec v, (o tr (.execQuery cfg.check_mlmd_env_table.query)).1.isOk = true →
      (o tr (.execQuery cfg.check_mlmd_env_table.query)).2.records = [rec] →
      parseInt64 (rec.headD "") = some v →
      GetSchemaVersion cfg o tr =
        (.ok v, tr ++ [.execQuery cfg.check_mlmd_env_table.query])) ∧
    ((o tr (.execQuery cfg.check_mlmd_env_table.query)).1.isOk = false →
      (o (tr ++ [.execQuery cfg.check_mlmd_env_table.query])
        (.execQuery cfg.check_tables_in_v0_13_2.query)).1.isOk = true →
      GetSchemaVersion cfg o tr =
        (.ok 0, tr ++ [.execQuery cfg.check_mlmd_env_table.query,
                       .execQuery cfg.check_tables_in_v0_13_2.query])) ∧
    ((o tr (.execQuery cfg.check_mlmd_env_table.query)).1.isOk = false →
      (o (tr ++ [.execQuery cfg.check_mlmd_env_table.query])
        (.execQuery cfg.check_tables_in_v0_13_2.query)).1.isOk = false →
      GetSchemaVersion cfg o tr =
        (.err ⟨.notFound, "it looks an empty db is given."⟩,
         tr ++ [.execQuery cfg.check_mlmd_env_table.query,
                .execQuery cfg.check_tables_in_v0_13_2.query])) := by
  have e1 := ExecuteQuery_zero o cfg.check_mlmd_env_table tr h1
  have e2 := ExecuteQuery_zero o cfg.check_tables_in_v0_13_2
    (tr ++ [.execQuery cfg.check_mlmd_env_table.query]) h2
  refine ⟨?_, ?_, ?_, ?_, ?_⟩
  · intro hok hrec
    simp only [GetSchemaVersion, e1, hok, if_true, hrec]
    simp
  · intro hok hlen
    simp only [GetSchemaVersion, e1, hok, if_true]
    rw [if_neg (by omega), if_pos hlen]
  · intro rec v hok hrec hv
    simp only [GetSchemaVersion, e1, hok, if_true, hrec]
    simp only [List.length_cons, List.length_nil]
    rw [if_neg (by omega), if_neg (by omega)]
    simp only [List.headD_cons]
    rw [hv]
  · intro hbad hok2
    simp only [GetSchemaVersion, e1, hbad, Bool.false_eq_true, if_false, e2, hok2, if_true]
    simp [List.append_assoc]
  · intro hbad hbad2
    simp only [GetSchemaVersion, e1, hbad, Bool.false_eq_true, if_false, e2, hbad2]
    simp [List.append_assoc]

/-- Witness for C2: on a source whose `MLMDEnv` probe succeeds with zero rows
the result is `Aborted`. -/
theorem C2_get_schema_version_spec_witness :
    GetSchemaVersion sampleConfig constOkOracle [] =
      (.err ⟨.aborted,
        "In the given db, MLMDEnv table exists but no schema_version can be found. This may be due to concurrent connection to the empty database. Please retry connection."⟩,
       [.execQuery sampleConfig.check_mlmd_env_table.query]) :=
  (C2_get_schema_version_spec sampleConfig constOkOracle [] rfl rfl).1 rfl rfl

/-- With an oracle that keeps answering OK, the raw-string upgrade queries all
run in order and succeed. -/
theorem runUpgradeQueries_ok (o : Oracle) :
    ∀ (qs : List TemplateQuery) (tr : List Act), OracleOkFrom o tr →
      runUpgradeQueries o qs tr =
        (.ok (), tr ++ qs.map (fun tq => Act.execQuery tq.query))
  | [], tr, _ => by simp [runUpgradeQueries]
  | tq :: rest, tr, hok => by
    have h1 : (o tr (Act.execQuery tq.query)).1.isOk = true := hok tr _ (List.prefix_refl tr)
    have ih := runUpgradeQueries_ok o rest (tr ++ [Act.execQuery tq.query])
      (hok.mono (List.prefix_append tr _))
    simp [runUpgradeQueries, runAct, h1, ih]

/-- With an OK-answering oracle, zero-parameter downgrade queries all run in
order and succeed. -/
theorem runDowngradeQueries_ok (o : Oracle) :
    ∀ (qs : List TemplateQuery) (tr : List Act), OracleOkFrom o tr →
      (∀ tq ∈ qs, tq.parameter_num = 0) →
      runDowngradeQueries o qs tr =
        (.ok (), tr ++ qs.map (fun tq => Act.execQuery tq.query))
  | [], tr, _, _ => by simp [runDowngradeQueries]
  | tq :: rest, tr, hok, harr => by
    have h0 : tq.parameter_num = 0 := harr tq (List.mem_cons_self tq rest)
    have e := ExecuteQuery_zero o tq tr h0
    have h1 : (o tr (Act.execQuery tq.query)).1.isOk = true := hok tr _ (List.prefix_refl tr)
    have ih := runDowngradeQueries_ok o rest (tr ++ [Act.execQuery tq.query])
      (hok.mono (List.prefix_append tr _))
      (fun q hq => harr q (List.mem_cons_of_mem _ hq))
    simp [runDowngradeQueries, e, h1, ih]

/-- With an OK-answering oracle and all intermediate schemes present, the
upgrade loop succeeds and produces exactly the expected trace. -/
theorem upgradeLoop_ok (cfg : MetadataSourceQueryConfig) (o : Oracle) :
    ∀ (fuel : Nat) (db_version lib_version : Int) (tr : List Act), OracleOkFrom o tr →
      (lib_version - db_version).toNat = fuel →
      (∀ v, db_version < v → v ≤ lib_version → ∃ s, cfg.migration_schemes v = some s) →
      upgradeLoop cfg o fuel db_version lib_version tr =
        (.ok (), tr ++ expectedUpgradeActs cfg fuel db_version)
  | 0, _, _, tr, _, _, _ => by simp [upgradeLoop, expectedUpgradeActs]
  | fuel + 1, db, lib, tr, hok, hfuel, hs => by
    have hlt : db < lib := by omega
    obtain ⟨scheme, hscheme⟩ := hs (db + 1) (by omega) (by omega)
    have hq := runUpgradeQueries_ok o scheme.upgrade_queries tr hok
    have hupd : (o (tr ++ scheme.upgrade_queries.map (fun tq => Act.execQuery tq.query))
        (Act.updateSchemaVersion (db + 1))).1.isOk = true :=
      hok _ _ (List.prefix_append tr _)
    have ih := upgradeLoop_ok cfg o fuel (db + 1) lib
      (tr ++ scheme.upgrade_queries.map (fun tq => Act.execQuery tq.query) ++
        [Act.updateSchemaVersion (db + 1)])
      (hok.mono ((List.prefix_append tr _).trans (List.prefix_append _ _)))
      (by omega) (fun v hv1 hv2 => hs v (by omega) hv2)
    simp only [List.append_assoc, List.singleton_append] at ih
    simp [upgradeLoop, hlt, hscheme, hq, runAct, hupd, ih, expectedUpgradeActs,
      List.append_assoc]

/-- With an OK-answering oracle, schemes present up to `m` and the scheme for
`m + 1` missing, the upgrade loop completes the first `m - db` steps and then
fails with `Internal`. -/
theorem upgradeLoop_missing (cfg : MetadataSourceQueryConfig) (o : Oracle) :
    ∀ (n fuel : Nat), n < fuel → ∀ (db_version lib_version m : Int) (tr : List Act),
      OracleOkFrom o tr → m - db_version = (n : Int) → m < lib_version →
      (∀ v, db_version < v → v ≤ m → ∃ s, cfg.migration_schemes v = some s) →
      cfg.migration_schemes (m + 1) = none →
      upgradeLoop cfg o fuel db_version lib_version tr =
        (.err ⟨.internal, "Cannot find migration_schemes to version " ++ toString (m + 1)⟩,
         tr ++ expectedUpgradeActs cfg n db_version)
  | 0, fuel + 1, _, db, lib, m, tr, _, hm, hlib, _, hnone => by
    have hdb : db = m := by omega
    subst hdb
    have hnone1 : cfg.migration_schemes (db + 1) = none := hnone
    simp [upgradeLoop, hlib, hnone1, expectedUpgradeActs]
  | n + 1, fuel + 1, hnf, db, lib, m, tr, hok, hm, hlib, hs, hnone => by
    have hlt : db < lib := by omega
    obtain ⟨scheme, hscheme⟩ := hs (db + 1) (by omega) (by omega)
    have hq := runUpgradeQueries_ok o scheme.upgrade_queries tr hok
    have hupd : (o (tr ++ scheme.upgrade_queries.map (fun tq => Act.execQuery tq.query))
        (Act.updateSchemaVersion (db + 1))).1.isOk = true :=
      hok _ _ (List.prefix_append tr _)
    have ih := upgradeLoop_missing cfg o n fuel (by omega) (db + 1) lib m
      (tr ++ scheme.upgrade_queries.map (fun tq => Act.execQuery tq.query) ++
        [Act.updateSchemaVersion (db + 1)])
      (hok.mono ((List.prefix_append tr _).trans (List.prefix_append _ _)))
      (by omega) hlib (fun v hv1 hv2 => hs v (by omega) hv2) hnone
    simp only [List.append_assoc, List.singleton_append] at ih
    simp [upgradeLoop, hlt, hscheme, hq, runAct, hupd, ih, expectedUpgradeActs,
      List.append_assoc]

/-- With an OK-answering oracle and well-formed schemes, the downgrade loop
succeeds and produces exactly the expected trace (no schema-version update on
the step down to version 0). -/
theorem downgradeLoop_ok (cfg : MetadataSourceQueryConfig) (o : Oracle) :
    ∀ (fuel : Nat) (db_version t : Int) (tr : List Act), OracleOkFrom o tr →
      (db_version - t).toNat = fuel → DowngradeSchemesWf cfg t db_version →
      downgradeLoop cfg o fuel db_version t tr =
        (.ok (), tr ++ expectedDowngradeActs cfg fuel db_version)
  | 0, _, _, tr, _, _, _ => by simp [downgradeLoop, expectedDowngradeActs]
  | fuel + 1, db, t, tr, hok, hfuel, hwf => by
    have hgt : db > t := by omega
    obtain ⟨scheme, hscheme, harr⟩ := hwf (db - 1) (by omega) (by omega)
    have hq := runDowngradeQueries_ok o scheme.downgrade_queries tr hok harr
    have hrestrict : DowngradeSchemesWf cfg t (db - 1) := fun v hv1 hv2 => hwf v hv1 (by omega)
    by_cases hpos : db - 1 > 0
    · have hupd : (o (tr ++ scheme.downgrade_queries.map (fun tq => Act.execQuery tq.query))
          (Act.updateSchemaVersion (db - 1))).1.isOk = true :=
        hok _ _ (List.prefix_append tr _)
      have ih := downgradeLoop_ok cfg o fuel (db - 1) t
        (tr ++ scheme.downgrade_queries.map (fun tq => Act.execQuery tq.query) ++
          [Act.updateSchemaVersion (db - 1)])
        (hok.mono ((List.prefix_append tr _).trans (List.prefix_append _ _)))
        (by omega) hrestrict
      simp only [List.append_assoc, List.singleton_append] at ih
      simp [downgradeLoop, hgt, hscheme, hq, runAct, hupd, hpos, ih, expectedDowngradeActs,
        List.append_assoc]
    · have ih := downgradeLoop_ok cfg o fuel (db - 1) t
        (tr ++ scheme.downgrade_queries.map (fun tq => Act.execQuery tq.query))
        (hok.mono (List.prefix_append tr _)) (by omega) hrestrict
      simp only [List.append_assoc, List.singleton_append] at ih
      simp [downgradeLoop, hgt, hscheme, hq, runAct, hpos, ih, expectedDowngradeActs,
        List.append_assoc]

/-- C1: `UpgradeMetadataSourceIfOutOfDate` when the probe reports database
version `db`: `db` above the library version is `FailedPrecondition` for
either value of the migration flag; `db` below the library version with
migration disabled is `FailedPrecondition`; with migration enabled and every
query succeeding it advances one version at a time — for each intermediate
version it runs that scheme's upgrade queries in catalog order and then
`UpdateSchemaVersion` of that version — and a missing migration-scheme entry
on the way yields `Internal`. -/
theorem C1_upgrade_spec (cfg : MetadataSourceQueryConfig) (o : Oracle) (tr tr1 : List Act)
    (db : Int) (hprobe : GetSchemaVersion cfg o tr = (.ok db, tr1)) :
    (∀ enable, db > cfg.schema_version →
      (UpgradeMetadataSourceIfOutOfDate cfg o enable tr).1.isErrWithCode .failedPrecondition
        = true ∧
      (UpgradeMetadataSourceIfOutOfDate cfg o enable tr).2 = tr1) ∧
    (db < cfg.schema_version →
      (UpgradeMetadataSourceIfOutOfDate cfg o false tr).1.isErrWithCode .failedPrecondition
        = true ∧
      (UpgradeMetadataSourceIfOutOfDate cfg o false tr).2 = tr1) ∧
    (db < cfg.schema_version → OracleOkFrom o tr1 →
      (∀ v, db < v → v ≤ cfg.schema_version → ∃ s, cfg.migration_schemes v = some s) →
      UpgradeMetadataSourceIfOutOfDate cfg o true tr =
        (.ok (), tr1 ++ expectedUpgradeActs cfg (cfg.schema_version - db).toNat db)) ∧
    (∀ m, db ≤ m → m < cfg.schema_version → OracleOkFrom o tr1 →
      (∀ v, db < v → v ≤ m → ∃ s, cfg.migration_schemes v = some s) →
      cfg.migration_schemes (m + 1) = none →
      UpgradeMetadataSourceIfOutOfDate cfg o true tr =
        (.err ⟨.internal, "Cannot find migration_schemes to version " ++ toString (m + 1)⟩,
         tr1 ++ expectedUpgradeActs cfg (m - db).toNat db)) := by
  refine ⟨?_, ?_, ?_, ?_⟩
  · intro enable hgt
    simp only [UpgradeMetadataSourceIfOutOfDate, hprobe]
    simp only [upgradeFromVersion, GetLibraryVersion]
    rw [if_neg (by simp [IsCompatible]; omega), if_pos hgt]
    exact ⟨rfl, rfl⟩
  · intro hlt
    simp only [UpgradeMetadataSourceIfOutOfDate, hprobe]
    simp only [upgradeFromVersion, GetLibraryVersion]
    rw [if_neg (by simp [IsCompatible]; omega), if_neg (by omega), if_pos (by simp [hlt])]
    exact ⟨rfl, rfl⟩
  · intro hlt hok hs
    simp only [UpgradeMetadataSourceIfOutOfDate, hprobe]
    simp only [upgradeFromVersion, GetLibraryVersion]
    rw [if_neg (by simp [IsCompatible]; omega), if_neg (by omega),
      if_neg (by simp), upgradeLoop_ok cfg o _ db _ tr1 hok rfl hs]
  · intro m hle hlt hok hs hnone
    simp only [UpgradeMetadataSourceIfOutOfDate, hprobe]
    simp only [upgradeFromVersion, GetLibraryVersion]
    rw [if_neg (by simp [IsCompatible]; omega), if_neg (by omega), if_neg (by simp),
      upgradeLoop_missing cfg o (m - db).toNat (cfg.schema_version - db).toNat (by omega)
        db cfg.schema_version m tr1 hok (by omega) hlt hs hnone]

/-- `db1Oracle` answers OK to every action. -/
theorem db1Oracle_allOk : ∀ (tr : List Act) (a : Act), (db1Oracle tr a).1.isOk = true := by
  intro tr a
  cases a <;> simp [db1Oracle, okStatus, Status.isOk] <;> split <;> rfl

/-- `db2Oracle` answers OK to every action. -/
theorem db2Oracle_allOk : ∀ (tr : List Act) (a : Act), (db2Oracle tr a).1.isOk = true := by
  intro tr a
  cases a <;> simp [db2Oracle, okStatus, Status.isOk] <;> split <;> rfl

/-- Witness for C1: on a version-1 database with library version 2, the
upgrade runs scheme 2's upgrade queries and updates the schema version to 2. -/
theorem C1_upgrade_spec_witness :
    UpgradeMetadataSourceIfOutOfDate sampleConfig db1Oracle true [] =
      (.ok (), [.execQuery sampleConfig.check_mlmd_env_table.query] ++
        expectedUpgradeActs sampleConfig (sampleConfig.schema_version - 1).toNat 1) :=
  (C1_upgrade_spec sampleConfig db1Oracle []
    [.execQuery sampleConfig.check_mlmd_env_table.query] 1 (by decide)).2.2.1
    (by decide) (fun tr a _ => db1Oracle_allOk tr a)
    (fun v hv1 hv2 => by
      have hsv : sampleConfig.schema_version = 2 := rfl
      have hv : v = 2 := by omega
      subst hv
      exact ⟨_, rfl⟩)

/-- C3: `DowngradeMetadataSource` rejects a target below 0 or above the
library version with `InvalidArgument` before running anything; otherwise,
with the probe reporting `db` at most the library version and every query
succeeding, it steps from `db` down to the target, running each destination
scheme's downgrade queries and calling `UpdateSchemaVersion` of the
destination only when that version is positive. -/
theorem C3_downgrade_spec (cfg : MetadataSourceQueryConfig) (o : Oracle)
    (to_schema_version : Int) (tr : List Act) :
    (to_schema_version < 0 ∨ to_schema_version > cfg.schema_version →
      DowngradeMetadataSource cfg o to_schema_version tr =
        (.err ⟨.invalidArgument,
          "MLMD cannot be downgraded to schema_version: " ++ toString to_schema_version ++
          ". The target version should be greater or equal to 0, and the current library version: " ++
          toString cfg.schema_version ++ " needs to be greater than the target version."⟩,
         tr)) ∧
    (∀ db tr1, 0 ≤ to_schema_version → to_schema_version ≤ cfg.schema_version →
      GetSchemaVersion cfg o tr = (.ok db, tr1) → db ≤ cfg.schema_version →
      OracleOkFrom o tr1 → DowngradeSchemesWf cfg to_schema_version db →
      DowngradeMetadataSource cfg o to_schema_version tr =
        (.ok (), tr1 ++ expectedDowngradeActs cfg (db - to_schema_version).toNat db)) := by
  constructor
  · intro h
    simp only [DowngradeMetadataSource]
    rw [if_pos h]
  · intro db tr1 h0 h1 hprobe hdb hok hwf
    simp only [DowngradeMetadataSource]
    rw [if_neg (by push_neg; exact ⟨by omega, by omega⟩)]
    simp only [hprobe]
    rw [if_neg (by omega), downgradeLoop_ok cfg o _ db _ tr1 hok rfl hwf]

/-- Witness for C3: downgrading a version-2 database to 0 runs the downgrade
queries of schemes 1 and 0, updating the stored version only at step 1. -/
theorem C3_downgrade_spec_witness :
    DowngradeMetadataSource sampleConfig db2Oracle 0 [] =
      (.ok (), [.execQuery sampleConfig.check_mlmd_env_table.query] ++
        expectedDowngradeActs sampleConfig ((2 : Int) - 0).toNat 2) :=
  (C3_downgrade_spec sampleConfig db2Oracle 0 []).2 2
    [.execQuery sampleConfig.check_mlmd_env_table.query]
    (by decide) (by decide) (by decide) (by decide)
    (fun tr a _ => db2Oracle_allOk tr a)
    (fun v hv1 hv2 => by
      have hv : v = 0 ∨ v = 1 := by omega
      rcases hv with hv | hv <;> subst hv <;> exact ⟨_, rfl, by decide⟩)

/-- C10: on an empty database (the schema probe reports `NotFound`),
`DowngradeMetadataSource` with a target inside `[0, lib_version]` returns
`InvalidArgument` — not OK and not `NotFound` — and issues no downgrade query
(the trace stays exactly the probe's trace). -/
theorem C10_downgrade_empty_db (cfg : MetadataSourceQueryConfig) (o : Oracle)
    (to_schema_version : Int) (tr tr1 : List Act) (s : Status)
    (h0 : 0 ≤ to_schema_version) (h1 : to_schema_version ≤ cfg.schema_version)
    (hprobe : GetSchemaVersion cfg o tr = (.err s, tr1)) (hnf : s.code = .notFound) :
    DowngradeMetadataSource cfg o to_schema_version tr =
      (.err ⟨.invalidArgument, "Empty database is given. Downgrade operation is not needed."⟩,
       tr1) := by
  simp only [DowngradeMetadataSource]
  rw [if_neg (by push_neg; exact ⟨by omega, by omega⟩)]
  simp only [hprobe]
  rw [if_pos hnf]

/-- `runChecks` never aborts on a failing check: with zero-parameter check
templates it issues exactly one query per table, collecting one status per
check, whatever the outcomes. -/
theorem runChecks_trace (o : Oracle) :
    ∀ (qs : List TemplateQuery) (tr : List Act), (∀ tq ∈ qs, tq.parameter_num = 0) →
      ∃ sts, runChecks o qs tr =
        (some sts, tr ++ qs.map (fun tq => Act.execQuery tq.query)) ∧ sts.length = qs.length
  | [], tr, _ => ⟨[], by simp [runChecks], rfl⟩
  | tq :: rest, tr, harr => by
    have h0 : tq.parameter_num = 0 := harr tq (List.mem_cons_self tq rest)
    have e := ExecuteQuery_zero o tq tr h0
    obtain ⟨sts, hrec, hlen⟩ := runChecks_trace o rest (tr ++ [Act.execQuery tq.query])
      (fun q hq => harr q (List.mem_cons_of_mem _ hq))
    simp only [List.append_assoc, List.singleton_append] at hrec
    by_cases hok : (o tr (Act.execQuery tq.query)).1.isOk = true
    · exact ⟨okStatus :: sts, by simp [runChecks, e, hok, hrec], by simp [hlen]⟩
    · exact ⟨(o tr (Act.execQuery tq.query)).1 :: sts,
        by simp [runChecks, e, hok, hrec], by simp [hlen]⟩

/-- With an OK-answering oracle, the table-creation statements all run in
order and succeed. -/
theorem runCreates_ok (o : Oracle) :
    ∀ (qs : List TemplateQuery) (tr : List Act), OracleOkFrom o tr →
      (∀ tq ∈ qs, tq.parameter_num = 0) →
      runCreates o qs tr = (.ok (), tr ++ qs.map (fun tq => Act.execQuery tq.query))
  | [], tr, _, _ => by simp [runCreates]
  | tq :: rest, tr, hok, harr => by
    have h0 : tq.parameter_num = 0 := harr tq (List.mem_cons_self tq rest)
    have e := ExecuteQuery_zero o tq tr h0
    have h1 : (o tr (Act.execQuery tq.query)).1.isOk = true := hok tr _ (List.prefix_refl tr)
    have ih := runCreates_ok o rest (tr ++ [Act.execQuery tq.query])
      (hok.mono (List.prefix_append tr _))
      (fun q hq => harr q (List.mem_cons_of_mem _ hq))
    simp [runCreates, e, h1, ih]

/-- With an OK-answering oracle, the secondary-index statements all run in
order and succeed. -/
theorem runIndices_ok (o : Oracle) :
    ∀ (qs : List TemplateQuery) (tr : List Act), OracleOkFrom o tr →
      (∀ tq ∈ qs, tq.parameter_num = 0) →
      runIndices o qs tr = (.ok (), tr ++ qs.map (fun tq => Act.execQuery tq.query))
  | [], tr, _, _ => by simp [runIndices]
  | tq :: rest, tr, hok, harr => by
    have h0 : tq.parameter_num = 0 := harr tq (List.mem_cons_self tq rest)
    have e := ExecuteQuery_zero o tq tr h0
    have h1 : (o tr (Act.execQuery tq.query)).1.isOk = true := hok tr _ (List.prefix_refl tr)
    have ih := runIndices_ok o rest (tr ++ [Act.execQuery tq.query])
      (hok.mono (List.prefix_append tr _))
      (fun q hq => harr q (List.mem_cons_of_mem _ hq))
    simp [runIndices, e, h1, ih]

/-- C4: `InitMetadataSourceIfNotExists` (no pinned schema version) runs the
15 table checks after a successful upgrade step and has exactly three
outcomes: all checks passing returns OK with nothing else issued; a strict
mix of passing and failing checks is `Aborted`; all checks failing runs
`InitMetadataSource`, which (when the source accepts everything) creates
every table and every secondary index and inserts the library version into
`MLMDEnv` — and a secondary-index failure whose message contains
`"Duplicate key name"` is skipped rather than propagated. -/
theorem C4_init_if_not_exists_spec (cfg : MetadataSourceQueryConfig) (o : Oracle)
    (enable : Bool) (tr tr1 tr2 : List Act) (sts : List Status)
    (hup : UpgradeMetadataSourceIfOutOfDate cfg o enable tr = (.ok (), tr1))
    (hchk : runChecks o (checkTableTemplates cfg) tr1 = (some sts, tr2)) :
    ((∀ tq ∈ checkTableTemplates cfg, tq.parameter_num = 0) →
      tr2 = tr1 ++ (checkTableTemplates cfg).map (fun tq => Act.execQuery tq.query)) ∧
    ((∀ s ∈ sts, s.isOk = true) →
      InitMetadataSourceIfNotExists cfg o enable tr = (.ok (), tr2)) ∧
    ((∃ s ∈ sts, s.isOk = true) → (∃ s ∈ sts, s.isOk = false) →
      (InitMetadataSourceIfNotExists cfg o enable tr).1.isErrWithCode .aborted = true ∧
      (InitMetadataSourceIfNotExists cfg o enable tr).2 = tr2) ∧
    ((∀ s ∈ sts, s.isOk = false) → sts ≠ [] →
      InitMetadataSourceIfNotExists cfg o enable tr = InitMetadataSource cfg o tr2) ∧
    (OracleOkFrom o tr2 → (∀ tq ∈ createTableTemplates cfg, tq.parameter_num = 0) →
      (∀ tq ∈ cfg.secondary_indices, tq.parameter_num = 0) →
      InitMetadataSource cfg o tr2 =
        (.ok (), tr2 ++ (createTableTemplates cfg).map (fun tq => Act.execQuery tq.query) ++
          cfg.secondary_indices.map (fun tq => Act.execQuery tq.query) ++
          [Act.insertSchemaVersion cfg.schema_version])) ∧
    (∀ (tq : TemplateQuery) (rest : List TemplateQuery) (tr3 : List Act),
      tq.parameter_num = 0 →
      (o tr3 (Act.execQuery tq.query)).1.isOk = false →
      strContains (o tr3 (Act.execQuery tq.query)).1.message "Duplicate key name" = true →
      runIndices o (tq :: rest) tr3 = runIndices o rest (tr3 ++ [Act.execQuery tq.query])) := by
  refine ⟨?_, ?_, ?_, ?_, ?_, ?_⟩
  · intro harr
    obtain ⟨sts2, h2, _⟩ := runChecks_trace o (checkTableTemplates cfg) tr1 harr
    rw [hchk] at h2
    exact (Prod.ext_iff.mp h2).2
  · intro hall
    have hfil : sts.filter (fun s => !s.isOk) = [] := by
      simp only [List.filter_eq_nil_iff]
      intro s hs
      simp [hall s hs]
    simp [InitMetadataSourceIfNotExists, hup, hchk, hfil]
  · rintro ⟨sOk, hsOk, hOk⟩ ⟨sBad, hsBad, hBad⟩
    have hfil : sts.filter (fun s => !s.isOk) ≠ [] := by
      intro hnil
      have := List.filter_eq_nil_iff.mp hnil sBad hsBad
      simp [hBad] at this
    have hlen : (sts.filter (fun s => !s.isOk)).length < sts.length := by
      rw [List.length_filter_lt_length_iff_exists]
      exact ⟨sOk, hsOk, by simp [hOk]⟩
    constructor <;>
      simp [InitMetadataSourceIfNotExists, hup, hchk, List.isEmpty_iff, hfil,
        Nat.ne_of_gt hlen, Outcome.isErrWithCode]
  · intro hall hne
    have hfil : sts.filter (fun s => !s.isOk) = sts := by
      rw [List.filter_eq_self]
      intro s hs
      simp [hall s hs]
    simp [InitMetadataSourceIfNotExists, hup, hchk, hfil, List.isEmpty_iff, hne]
  · intro hok harrc harri
    have hc := runCreates_ok o (createTableTemplates cfg) tr2 hok harrc
    have hi := runIndices_ok o cfg.secondary_indices
      (tr2 ++ (createTableTemplates cfg).map (fun tq => Act.execQuery tq.query))
      (hok.mono (List.prefix_append tr2 _)) harri
    have hins : (o (tr2 ++ (createTableTemplates cfg).map (fun tq => Act.execQuery tq.query)
        ++ cfg.secondary_indices.map (fun tq => Act.execQuery tq.query))
        (Act.insertSchemaVersion cfg.schema_version)).1.isOk = true :=
      hok _ _ ((List.prefix_append tr2 _).trans (List.prefix_append _ _))
    simp only [List.append_assoc] at hi hins
    simp [InitMetadataSource, hc, hi, runAct, GetLibraryVersion, hins, List.append_assoc]
  · intro tq rest tr3 h0 hbad hdup
    have e := ExecuteQuery_zero o tq tr3 h0
    simp [runIndices, e, hbad, hdup]

/-- `freshDbOracle` answers OK once the trace is at least 17 actions long. -/
theorem freshDbOracle_ok_of_long (tr : List Act) (a : Act) (h : 17 ≤ tr.length) :
    (freshDbOracle tr a).1.isOk = true := by
  unfold freshDbOracle
  rw [if_neg (by omega)]
  rfl

/-- Witness for C4: initializing a fresh, empty database runs the probes and
the 15 failing checks, then creates the 15 tables, the secondary index and
inserts the library version. -/
theorem C4_init_if_not_exists_spec_witness :
    InitMetadataSourceIfNotExists sampleConfig freshDbOracle true [] =
      (.ok (),
        ([.execQuery sampleConfig.check_mlmd_env_table.query,
          .execQuery sampleConfig.check_tables_in_v0_13_2.query] ++
          (checkTableTemplates sampleConfig).map (fun tq => Act.execQuery tq.query)) ++
        (createTableTemplates sampleConfig).map (fun tq => Act.execQuery tq.query) ++
        sampleConfig.secondary_indices.map (fun tq => Act.execQuery tq.query) ++
        [Act.insertSchemaVersion sampleConfig.schema_version]) := by
  have h := C4_init_if_not_exists_spec sampleConfig freshDbOracle true []
    [.execQuery sampleConfig.check_mlmd_env_table.query,
     .execQuery sampleConfig.check_tables_in_v0_13_2.query]
    ([.execQuery sampleConfig.check_mlmd_env_table.query,
      .execQuery sampleConfig.check_tables_in_v0_13_2.query] ++
      (checkTableTemplates sampleConfig).map (fun tq => Act.execQuery tq.query))
    (List.replicate 15 ⟨.internal, "no such table"⟩)
    (by decide) (by decide)
  rw [h.2.2.2.1 (by decide) (by decide),
    h.2.2.2.2.1
      (fun tr a htr => freshDbOracle_ok_of_long tr a
        (le_trans (by decide) htr.length_le))
      (by decide) (by decide)]

/-- C5: in `InitMetadataSource`, when the insert of the schema version fails,
the stored schema version is re-read; an identical existing value (another
initializer won the race) is OK, a different value is `DataLoss`. -/
theorem C5_init_insert_race (cfg : MetadataSourceQueryConfig) (o : Oracle)
    (tr tr1 tr2 tr4 : List Act) (v : Int)
    (hc : runCreates o (createTableTemplates cfg) tr = (.ok (), tr1))
    (hi : runIndices o cfg.secondary_indices tr1 = (.ok (), tr2))
    (hf : (o tr2 (Act.insertSchemaVersion cfg.schema_version)).1.isOk = false)
    (hg : GetSchemaVersion cfg o (tr2 ++ [Act.insertSchemaVersion cfg.schema_version]) =
      (.ok v, tr4)) :
    (v = cfg.schema_version → InitMetadataSource cfg o tr = (.ok (), tr4)) ∧
    (v ≠ cfg.schema_version →
      (InitMetadataSource cfg o tr).1.isErrWithCode .dataLoss = true ∧
      (InitMetadataSource cfg o tr).2 = tr4) := by
  constructor
  · intro hv
    simp [InitMetadataSource, hc, hi, runAct, GetLibraryVersion, hf, hg, hv]
  · intro hv
    constructor <;>
      simp [InitMetadataSource, hc, hi, runAct, GetLibraryVersion, hf, hg, hv,
        Outcome.isErrWithCode]

/-- Witness for C5: the insert fails, the re-read sees the library version 2,
and initialization reports OK. -/
theorem C5_init_insert_race_witness :
    InitMetadataSource sampleConfig raceOracle [] =
      (.ok (),
        ((createTableTemplates sampleConfig).map (fun tq => Act.execQuery tq.query) ++
          sampleConfig.secondary_indices.map (fun tq => Act.execQuery tq.query) ++
          [Act.insertSchemaVersion sampleConfig.schema_version]) ++
        [Act.execQuery sampleConfig.check_mlmd_env_table.query]) :=
  (C5_init_insert_race sampleConfig raceOracle []
    ((createTableTemplates sampleConfig).map (fun tq => Act.execQuery tq.query))
    ((createTableTemplates sampleConfig).map (fun tq => Act.execQuery tq.query) ++
      sampleConfig.secondary_indices.map (fun tq => Act.execQuery tq.query))
    (((createTableTemplates sampleConfig).map (fun tq => Act.execQuery tq.query) ++
      sampleConfig.secondary_indices.map (fun tq => Act.execQuery tq.query) ++
      [Act.insertSchemaVersion sampleConfig.schema_version]) ++
      [Act.execQuery sampleConfig.check_mlmd_env_table.query])
    2 (by decide) (by decide) (by decide) (by decide)).1 rfl

/-- Witness for C10 on the empty-database oracle. -/
theorem C10_downgrade_empty_db_witness :
    DowngradeMetadataSource sampleConfig emptyDbOracle 0 [] =
      (.err ⟨.invalidArgument, "Empty database is given. Downgrade operation is not needed."⟩,
       [.execQuery sampleConfig.check_mlmd_env_table.query,
        .execQuery sampleConfig.check_tables_in_v0_13_2.query]) :=
  C10_downgrade_empty_db sampleConfig emptyDbOracle 0 []
    [.execQuery sampleConfig.check_mlmd_env_table.query,
     .execQuery sampleConfig.check_tables_in_v0_13_2.query]
    ⟨.notFound, "it looks an empty db is given."⟩
    (by decide) (by decide) (by decide) rfl

end MLMD
